import Mathlib

/-!
Shallow embedding of the propital-back-end authentication and notification
core.  The repository has three entry points that wire the same logical
operations differently:

* `src/index.js` — monolithic app: every notification/user route is behind the
  `authenticateToken` middleware, notification schema field `recipients`,
  creation is admin-gated, input is not re-validated in the handler.
* the inline duplicate entry point (`src/unnamed/part_001`) — notification
  routes are registered WITHOUT `authenticateToken`, schema field `userIds`,
  handlers validate their body and take the caller id from the body.
* the modular entry point (`src/unnamed/part_002` with
  `src/routes/notificationRoutes.js` = `src/unnamed/part_000` and
  `src/controllers/notificationController.js`) — same handlers as the inline
  duplicate, also registered without `authenticateToken`.

Machine-generated ids (`_id`) are modelled as `Nat`, timestamps as `Nat`
seconds, rendered HTTP responses as a status code plus the `message` field of
the JSON body.  MongoDB / mongoose operations (`findOne`, `findById`,
`updateMany`, `$push`, `$pull`, `deleteOne`, `findByIdAndUpdate`) are embedded
as the corresponding pure list transformations; `updateMany`'s
`modifiedCount` counts matched documents whose update actually changed them,
as in MongoDB.
-/

namespace Propital

/-- Rendered HTTP response: status code and the `message` field of the JSON
body, as produced by `res.status(s).json({ message })`. -/
structure Resp where
  status : Nat
  message : String
deriving Repr, DecidableEq

/-- Verified token claims attached by the middleware as `req.user`
(`jwt.sign({ userId, isAdmin }, ...)` at src/index.js:100-104). -/
structure Claims where
  userId : Nat
  isAdmin : Bool
deriving Repr, DecidableEq

/-- Modelled from the spec: a signed token of the jsonwebtoken library (the
library itself is not part of src/).  Per §4.2 it embeds the claims and an
expiry timestamp, plus a signature over payload and expiry under the
process-wide secret. -/
structure Token where
  userId : Nat
  isAdmin : Bool
  exp : Nat
  sig : Nat
deriving Repr, DecidableEq

/-- Modelled from the spec: the signature an honest signer with `secret`
produces over the payload and expiry (an abstract MAC; only equality with a
recomputed signature matters to `jwtVerify`). -/
def sigOf (secret userId : Nat) (isAdmin : Bool) (exp : Nat) : Nat :=
  Nat.pair secret (Nat.pair userId (Nat.pair (cond isAdmin 1 0) exp)) + 1

/-- Modelled from the spec: `jwt.sign({userId, isAdmin}, secret, {expiresIn: "1h"})`
as called at src/index.js:100-104 — fixed one-hour (3600 s) expiry. -/
def jwtSign (secret userId : Nat) (isAdmin : Bool) (now : Nat) : Token :=
  { userId := userId, isAdmin := isAdmin, exp := now + 3600
    sig := sigOf secret userId isAdmin (now + 3600) }

/-- Failure modes of token verification (spec §4.2): `InvalidToken` for
malformed input or signature mismatch, `TokenExpired` for a stale token. -/
inductive VerifyError where
  | invalidToken
  | tokenExpired
deriving Repr, DecidableEq

/-- Modelled from the spec: `jwt.verify(token, secret)` — checks the
signature against the process-wide secret and then the expiry against the
current clock; the expiry is checked even when the signature is valid. -/
def jwtVerify (secret now : Nat) (t : Token) : Except VerifyError Claims :=
  if t.sig ≠ sigOf secret t.userId t.isAdmin t.exp then
    Except.error VerifyError.invalidToken
  else if t.exp ≤ now then
    Except.error VerifyError.tokenExpired
  else
    Except.ok { userId := t.userId, isAdmin := t.isAdmin }

/-- The `authenticateToken` middleware, src/index.js:122-130: a missing cookie
token is answered with 401 "Token required"; any `jwt.verify` failure with
403 "Invalid token"; on success the verified claims become `req.user`. -/
def authenticateToken (secret now : Nat) (cookieToken : Option Token) :
    Except Resp Claims :=
  match cookieToken with
  | none => Except.error ⟨401, "Token required"⟩
  | some t =>
    match jwtVerify secret now t with
    | Except.error _ => Except.error ⟨403, "Invalid token"⟩
    | Except.ok u => Except.ok u

/-- A document of the `users` collection (src/index.js:32-45, identical schema
in src/models/User.js). -/
structure UserR where
  id : Nat
  email : String
  username : String
  password : String
  isDeleted : Bool := false
  isAdmin : Bool := false
  notifications : List Nat := []
deriving Repr, DecidableEq

/-- A document of the `notifications` collection in the monolithic entry
point (src/index.js:48-55): recipient set under field name `recipients`. -/
structure NotificationR where
  id : Nat
  message : String
  createdAt : Nat
  isRead : Bool := false
  recipients : List Nat
deriving Repr, DecidableEq

/-- The persistent store of the monolithic entry point. -/
structure DB where
  users : List UserR
  notifications : List NotificationR
deriving Repr, DecidableEq

/-- A document of the `notifications` collection in the duplicate entry
points (src/models/Notification.js): recipient set under field name
`userIds`. -/
structure NotificationC where
  id : Nat
  message : String
  userIds : List Nat
  isRead : Bool := false
  createdAt : Nat
deriving Repr, DecidableEq

/-- The persistent store of the duplicate (inline / modular) entry points. -/
structure DBC where
  users : List UserR
  notifications : List NotificationC
deriving Repr, DecidableEq

/-- The login response body (src/index.js:105-115): on success the token
cookie is set and the body carries the user's id and admin flag. -/
structure LoginResp where
  status : Nat
  message : String
  cookie : Option Token := none
  id : Option Nat := none
  isAdmin : Option Bool := none
deriving Repr, DecidableEq

/-- The query `User.findOne({ email, isDeleted: false })` used by the login
endpoint, src/index.js:96: first user matching the email whose soft-delete
flag is clear. -/
def findActiveByEmail (db : DB) (email : String) : Option UserR :=
  db.users.find? (fun u => u.email = email && !u.isDeleted)

/-- The login endpoint, src/index.js:93-119.  `compare` stands for
`bcrypt.compare` (password against stored hash); `secret`/`now` feed
`jwt.sign`.  An unknown (or soft-deleted) email and a failed password
comparison take the same early return. -/
def login (compare : String → String → Bool) (secret now : Nat) (db : DB)
    (email password : String) : LoginResp :=
  match findActiveByEmail db email with
  | none => { status := 401, message := "Invalid credentials" }
  | some user =>
    if !(compare password user.password) then
      { status := 401, message := "Invalid credentials" }
    else
      { status := 200, message := "Login successful"
        cookie := some (jwtSign secret user.id user.isAdmin now)
        id := some user.id, isAdmin := some user.isAdmin }

/-- The mongoose `notification.save()` on the src/index.js schema: `message`
is a `required` String path, which mongoose rejects when empty; otherwise the
document is appended to the collection. -/
def saveNotification (db : DB) (n : NotificationR) : Except String DB :=
  if n.message = "" then
    Except.error "Notification validation failed: message: Path `message` is required."
  else
    Except.ok { db with notifications := db.notifications ++ [n] }

/-- The write `User.updateMany({_id: {$in: recipientIds}}, {$push: {notifications: nid}})`
of src/index.js:144-147: appends the new notification id to the
back-reference list of every user whose id is in `recipientIds`. -/
def pushNotificationRef (db : DB) (recipientIds : List Nat) (nid : Nat) : DB :=
  { db with users := db.users.map (fun u =>
      if recipientIds.contains u.id then
        { u with notifications := u.notifications ++ [nid] }
      else u) }

/-- The `POST /notifications` handler of src/index.js:133-150 (behind
`authenticateToken`): a non-admin caller gets 403 and nothing is written;
otherwise the notification is saved as-is (no handler-level validation of
`message`/`recipientIds`) and pushed to the recipients' back-reference
lists.  The handler has no try/catch, so a `save()` rejection escapes it
(`Except.error`). -/
def createNotificationRoute (db : DB) (user : Claims) (message : String)
    (recipientIds : List Nat) (nid now : Nat) : Except String (Resp × DB) :=
  if !user.isAdmin then
    Except.ok (⟨403, "Admin privileges required"⟩, db)
  else
    match saveNotification db
        { id := nid, message := message, createdAt := now
          isRead := false, recipients := recipientIds } with
    | Except.error e => Except.error e
    | Except.ok db1 =>
      Except.ok (⟨201, "Notification sent sers"⟩, pushNotificationRef db1 recipientIds nid)

/-- MongoDB `updateMany(filter, { isRead: true })` on the notifications
collection: every matched document is set read, and `modifiedCount` counts
the matched documents that were actually changed (those not already read). -/
def updateManySetRead (ns : List NotificationR) (p : NotificationR → Bool) :
    List NotificationR × Nat :=
  (ns.map (fun n => if p n then { n with isRead := true } else n),
   (ns.filter (fun n => p n && !n.isRead)).length)

/-- The mark-read response body (src/index.js:259-262): message plus the
`modifiedCount` of the bulk update on success. -/
structure MarkReadResp where
  status : Nat
  message : String
  modifiedCount : Option Nat := none
deriving Repr, DecidableEq

/-- The `PUT /notifications/read` handler of src/index.js:244-268 (behind
`authenticateToken`): an empty (or non-array) `notificationIds` body is a
400; otherwise `updateMany({_id: {$in: notificationIds}, recipients: req.user.userId}, {isRead: true})`
runs and the response reports its `modifiedCount`. -/
def markNotificationsRead (db : DB) (user : Claims) (notificationIds : List Nat) :
    MarkReadResp × DB :=
  if notificationIds.isEmpty then
    ({ status := 400, message := "notificationIds must be a non-empty array" }, db)
  else
    let r := updateManySetRead db.notifications
      (fun n => notificationIds.contains n.id && n.recipients.contains user.userId)
    ({ status := 200, message := "Notifications marked as read", modifiedCount := some r.2 },
     { db with notifications := r.1 })

/-- The recipients-membership query `Notification.find({ recipients: userId })`
used (together with a date window) by `GET /notifications/filter`,
src/index.js:180-183: all notifications listing the user as recipient. -/
def notificationsFor (db : DB) (userId : Nat) : List NotificationR :=
  db.notifications.filter (fun n => n.recipients.contains userId)

/-- The `DELETE /notifications/:id` handler of src/index.js:288-309 (behind
`authenticateToken`): 404 when no notification has the id; otherwise the id
is pulled from every user's back-reference list and the fetched document is
deleted.  `req.user` is never consulted — there is no recipient-or-admin
check. -/
def deleteNotificationRoute (db : DB) (_user : Claims) (id : Nat) : Resp × DB :=
  match db.notifications.find? (fun n => n.id = id) with
  | none => (⟨404, "Notification not found"⟩, db)
  | some _ =>
    let users1 := db.users.map (fun u =>
      if u.notifications.contains id then
        { u with notifications := u.notifications.filter (fun m => m ≠ id) }
      else u)
    let notifications1 := db.notifications.eraseP (fun n => n.id = id)
    (⟨200, "Notification deleted"⟩, { users := users1, notifications := notifications1 })

/-- The update `User.findByIdAndUpdate(id, { isDeleted: true })` of
src/index.js:324-328 on the list of user documents: sets the soft-delete
flag on the (unique) document carrying the id. -/
def setDeletedById : List UserR → Nat → List UserR
  | [], _ => []
  | u :: us, id =>
    if u.id = id then { u with isDeleted := true } :: us
    else u :: setDeletedById us id

/-- The `DELETE /users/:id` handler of src/index.js:321-340 (behind
`authenticateToken`): soft delete via `findByIdAndUpdate(id, {isDeleted: true}, {new: true})`;
404 when the id is absent, otherwise the updated document is returned. -/
def deleteUserRoute (db : DB) (id : Nat) : Resp × Option UserR × DB :=
  match db.users.find? (fun u => u.id = id) with
  | none => (⟨404, "User not found"⟩, none, db)
  | some u =>
    (⟨200, "User deleted"⟩, some { u with isDeleted := true },
     { db with users := setDeletedById db.users id })

/-- The `createNotification` handler of
src/controllers/notificationController.js:4-29 (identical inline copy at
src/unnamed/part_001:117-142): an empty `message` or empty/non-array
`userIds` is a 400 with nothing persisted; otherwise the notification is
saved and its id pushed to each listed user's back-reference list. -/
def createNotification (db : DBC) (message : String) (userIds : List Nat)
    (nid now : Nat) : Resp × DBC :=
  if message = "" || userIds.isEmpty then
    (⟨400, "Mensaje y lista de usuarios son requeridos"⟩, db)
  else
    let n : NotificationC :=
      { id := nid, message := message, userIds := userIds
        isRead := false, createdAt := now }
    let db1 : DBC := { db with notifications := db.notifications ++ [n] }
    let db2 : DBC := { db1 with users := db1.users.map (fun u =>
        if userIds.contains u.id then
          { u with notifications := u.notifications ++ [nid] }
        else u) }
    (⟨201, "Notificación creada"⟩, db2)

/-- The route wiring `router.post("/notifications", createNotification)` of
src/routes/notificationRoutes.js (src/unnamed/part_000:13), mounted without
`authenticateToken` (likewise the inline duplicate
`app.post("/notifications", ...)` at src/unnamed/part_001:117): the
request's token cookie is never consulted before the handler runs. -/
def routedCreateNotification (db : DBC) (_cookieToken : Option Token)
    (message : String) (userIds : List Nat) (nid now : Nat) : Resp × DBC :=
  createNotification db message userIds nid now

/-- The `deleteNotification` handler of
src/controllers/notificationController.js:92-119 (identical inline copy at
src/unnamed/part_001:223-250), mounted without `authenticateToken`: a
missing body `userId` is a 400; an absent id a 404; otherwise the
notification is removed and its id pulled from every back-reference list —
the supplied `userId` is never compared against the recipient list. -/
def deleteNotificationC (db : DBC) (id : Nat) (userId : Option Nat) : Resp × DBC :=
  match userId with
  | none => (⟨400, "ID de usuario requerido"⟩, db)
  | some _ =>
    match db.notifications.find? (fun n => n.id = id) with
    | none => (⟨404, "Notificación no encontrada"⟩, db)
    | some _ =>
      let notifications1 := db.notifications.eraseP (fun n => n.id = id)
      let users1 := db.users.map (fun u =>
        if u.notifications.contains id then
          { u with notifications := u.notifications.filter (fun m => m ≠ id) }
        else u)
      (⟨200, "Notificación eliminada"⟩, { users := users1, notifications := notifications1 })

/-- Sample user for concrete evaluations. -/
def aliceU : UserR :=
  { id := 10, email := "a@x.com", username := "alice", password := "H1", notifications := [1] }

/-- Sample user for concrete evaluations. -/
def bobU : UserR :=
  { id := 20, email := "b@x.com", username := "bob", password := "H2", notifications := [1, 2] }

/-- Sample store for the monolithic entry point: two users, notification 1
addressed to both, notification 2 addressed to bob only and already read. -/
def sampleDB : DB :=
  { users := [aliceU, bobU]
    notifications :=
      [{ id := 1, message := "n1", createdAt := 0, recipients := [10, 20] },
       { id := 2, message := "n2", createdAt := 0, isRead := true, recipients := [20] }] }

/-- Sample store for the duplicate entry points. -/
def sampleDBC : DBC :=
  { users := [{ id := 1, email := "c@x.com", username := "carol", password := "H3" }]
    notifications := [] }

/-- A bcrypt comparison oracle that rejects every password, used to drive the
wrong-password branch of `login` on concrete inputs. -/
def compareNever : String → String → Bool := fun _ _ => false

/-- On a list of notifications whose ids are pairwise distinct, `find?` by the
id of a member of the mapped list returns the image of that member, for any
id-preserving per-document update. -/
theorem notif_find?_map (l : List NotificationR) (f : NotificationR → NotificationR)
    (hf : ∀ n, (f n).id = n.id) (n1 : NotificationR)
    (hnd : (l.map (fun n => n.id)).Nodup) (hmem : n1 ∈ l) :
    (l.map f).find? (fun n => n.id = n1.id) = some (f n1) := by
  induction l with
  | nil => cases hmem
  | cons a l ih =>
    rw [List.map_cons] at hnd
    rcases List.nodup_cons.mp hnd with ⟨ha, hnd'⟩
    by_cases hid : a.id = n1.id
    · have hn1a : n1 = a := by
        rcases List.mem_cons.mp hmem with h | h
        · exact h
        · exact absurd (hid ▸ List.mem_map_of_mem (fun n => n.id) h) ha
      rw [List.map_cons, List.find?_cons_of_pos _ (by simp [hf, hid]), hn1a]
    · have hn1l : n1 ∈ l := by
        rcases List.mem_cons.mp hmem with h | h
        · exact absurd (congrArg NotificationR.id h).symm hid
        · exact h
      rw [List.map_cons, List.find?_cons_of_neg _ (by simp [hf, hid])]
      exact ih hnd' hn1l

/-- On a list of users whose ids are pairwise distinct, `find?` by the id of
a member returns that member. -/
theorem user_find?_self (l : List UserR) (u : UserR)
    (hnd : (l.map (fun x => x.id)).Nodup) (hmem : u ∈ l) :
    l.find? (fun w => w.id = u.id) = some u := by
  induction l with
  | nil => cases hmem
  | cons a l ih =>
    rw [List.map_cons] at hnd
    rcases List.nodup_cons.mp hnd with ⟨ha, hnd'⟩
    by_cases hid : a.id = u.id
    · have hua : u = a := by
        rcases List.mem_cons.mp hmem with h | h
        · exact h
        · exact absurd (hid ▸ List.mem_map_of_mem (fun x => x.id) h) ha
      rw [List.find?_cons_of_pos _ (by simp [hid]), hua]
    · have hul : u ∈ l := by
        rcases List.mem_cons.mp hmem with h | h
        · exact absurd (congrArg UserR.id h).symm hid
        · exact h
      rw [List.find?_cons_of_neg _ (by simp [hid])]
      exact ih hnd' hul

/-- Every member of `setDeletedById l id` is either the soft-deleted copy of
a member of `l` carrying `id`, or an untouched member of `l` whose id differs
from `id` (the ids of `l` being pairwise distinct). -/
theorem mem_setDeletedById_cases (l : List UserR) (id : Nat)
    (hnd : (l.map (fun x => x.id)).Nodup) :
    ∀ w ∈ setDeletedById l id,
      (∃ v, v ∈ l ∧ v.id = id ∧ w = { v with isDeleted := true }) ∨
        (w ∈ l ∧ w.id ≠ id) := by
  induction l with
  | nil => intro w hw; cases hw
  | cons a l ih =>
    rw [List.map_cons] at hnd
    rcases List.nodup_cons.mp hnd with ⟨ha, hnd'⟩
    intro w hw
    by_cases hid : a.id = id
    · rw [setDeletedById, if_pos hid] at hw
      rcases List.mem_cons.mp hw with h | h
      · exact Or.inl ⟨a, List.mem_cons_self _ _, hid, h⟩
      · refine Or.inr ⟨List.mem_cons_of_mem _ h, fun he => ?_⟩
        exact ha (hid ▸ he ▸ List.mem_map_of_mem (fun x => x.id) h)
    · rw [setDeletedById, if_neg hid] at hw
      rcases List.mem_cons.mp hw with h | h
      · subst h; exact Or.inr ⟨List.mem_cons_self _ _, hid⟩
      · rcases ih hnd' w h with ⟨v, hv, hvid, hw'⟩ | ⟨h1, h2⟩
        · exact Or.inl ⟨v, List.mem_cons_of_mem _ hv, hvid, hw'⟩
        · exact Or.inr ⟨List.mem_cons_of_mem _ h1, h2⟩

/-- The soft-deleted copy of a member `u` is a member of
`setDeletedById l u.id` (ids pairwise distinct). -/
theorem deleted_mem_setDeletedById (l : List UserR) (u : UserR)
    (hnd : (l.map (fun x => x.id)).Nodup) (hmem : u ∈ l) :
    { u with isDeleted := true } ∈ setDeletedById l u.id := by
  induction l with
  | nil => cases hmem
  | cons a l ih =>
    rw [List.map_cons] at hnd
    rcases List.nodup_cons.mp hnd with ⟨ha, hnd'⟩
    by_cases hid : a.id = u.id
    · have hua : u = a := by
        rcases List.mem_cons.mp hmem with h | h
        · exact h
        · exact absurd (hid ▸ List.mem_map_of_mem (fun x => x.id) h) ha
      rw [setDeletedById, if_pos hid, hua]
      exact List.mem_cons_self _ _
    · have hul : u ∈ l := by
        rcases List.mem_cons.mp hmem with h | h
        · exact absurd (congrArg UserR.id h).symm hid
        · exact h
      rw [setDeletedById, if_neg hid]
      exact List.mem_cons_of_mem _ (ih hnd' hul)

/-- A member of `l` whose id differs from `id` is untouched by
`setDeletedById l id`. -/
theorem mem_setDeletedById_of_ne (l : List UserR) (id : Nat) (v : UserR)
    (hv : v ∈ l) (hne : v.id ≠ id) : v ∈ setDeletedById l id := by
  induction l with
  | nil => cases hv
  | cons a l ih =>
    by_cases hid : a.id = id
    · rw [setDeletedById, if_pos hid]
      rcases List.mem_cons.mp hv with h | h
      · subst h; exact absurd hid hne
      · exact List.mem_cons_of_mem _ h
    · rw [setDeletedById, if_neg hid]
      rcases List.mem_cons.mp hv with h | h
      · subst h; exact List.mem_cons_self _ _
      · exact List.mem_cons_of_mem _ (ih h)

/-- C5: for every token whose embedded expiry lies at or before the
verification clock, `jwtVerify` rejects it with `tokenExpired`, even when its
signature is the honest signature under the process-wide secret. -/
theorem c5_verify_rejects_expired (secret now : Nat) (t : Token)
    (hsig : t.sig = sigOf secret t.userId t.isAdmin t.exp)
    (hexp : t.exp ≤ now) :
    jwtVerify secret now t = Except.error VerifyError.tokenExpired := by
  simp [jwtVerify, hsig, hexp]

/-- Witness for C5: a token honestly signed at time 0 (expiry 3600) is
rejected as expired when verified at time 4000. -/
theorem c5_verify_rejects_expired_witness :
    jwtVerify 5 4000 (jwtSign 5 2 true 0) = Except.error VerifyError.tokenExpired :=
  c5_verify_rejects_expired 5 4000 (jwtSign 5 2 true 0) rfl (by decide)

/-- C4 counterexample: the claim says all three authentication failures get
HTTP 401, but `authenticateToken` (src/index.js:126) answers 403 both for a
signature-mismatched token and for an expired one; only the missing-token
case gets 401. -/
theorem c4_invalid_token_gets_403 :
    authenticateToken 5 1 (some { jwtSign 5 1 true 0 with sig := (jwtSign 5 1 true 0).sig + 1 }) =
      Except.error ⟨403, "Invalid token"⟩ ∧
    authenticateToken 5 5000 (some (jwtSign 5 1 true 0)) =
      Except.error ⟨403, "Invalid token"⟩ ∧
    (403 : Nat) ≠ 401 := by
  refine ⟨rfl, rfl, by decide⟩

/-- C4 amended: `authenticateToken` rejects all three failure cases before
any handler runs, with 401 "Token required" when the token is missing and
403 "Invalid token" when `jwt.verify` fails (malformed/signature mismatch or
expired); every rejection carries status 401 or 403 and no other. -/
theorem c4_authenticate_status_amended (secret now : Nat) (tok : Option Token) :
    (tok = none →
      authenticateToken secret now tok = Except.error ⟨401, "Token required"⟩) ∧
    (∀ t, tok = some t → ∀ e, jwtVerify secret now t = Except.error e →
      authenticateToken secret now tok = Except.error ⟨403, "Invalid token"⟩) ∧
    (∀ r, authenticateToken secret now tok = Except.error r →
      r.status = 401 ∨ r.status = 403) := by
  refine ⟨?_, ?_, ?_⟩
  · intro h; subst h; rfl
  · intro t ht e he
    subst ht
    simp [authenticateToken, he]
  · intro r hr
    match tok with
    | none =>
      simp [authenticateToken] at hr
      subst hr; exact Or.inl rfl
    | some t =>
      simp only [authenticateToken] at hr
      cases hv : jwtVerify secret now t with
      | error e => rw [hv] at hr; simp at hr; subst hr; exact Or.inr rfl
      | ok u => rw [hv] at hr; simp at hr

/-- Witness for C4's amended theorem: the missing-token case answers 401 and
an expired token answers 403. -/
theorem c4_authenticate_status_amended_witness :
    authenticateToken 5 0 none = Except.error ⟨401, "Token required"⟩ ∧
    authenticateToken 5 5000 (some (jwtSign 5 1 true 0)) =
      Except.error ⟨403, "Invalid token"⟩ :=
  ⟨(c4_authenticate_status_amended 5 0 none).1 rfl,
   (c4_authenticate_status_amended 5 5000 (some (jwtSign 5 1 true 0))).2.1
     (jwtSign 5 1 true 0) rfl VerifyError.tokenExpired rfl⟩

/-- C1: the claim says every operation other than register/login/logout
rejects a token-less request with Unauthorized before any store operation.
The duplicate entry points mount `POST /notifications` without
`authenticateToken` (src/unnamed/part_000:13, src/unnamed/part_001:117), so
a request carrying no token still creates a notification and mutates the
users' back-reference lists; the guard itself, where it is mounted
(src/index.js), answers 401 without touching the store. -/
theorem c1_unguarded_route_mutates_without_token :
    routedCreateNotification sampleDBC none "hi" [1] 7 0 =
      (⟨201, "Notificación creada"⟩,
       { users := [{ id := 1, email := "c@x.com", username := "carol", password := "H3",
                     notifications := [7] }]
         notifications := [{ id := 7, message := "hi", userIds := [1], createdAt := 0 }] }) ∧
    authenticateToken 5 0 none = Except.error ⟨401, "Token required"⟩ :=
  ⟨rfl, rfl⟩

/-- C2: the claim says `delete(id, callerId)` fails with Forbidden unless the
caller is a recipient or an admin.  No variant performs that check: a
non-admin caller (id 30) who is not a recipient of notification 1 deletes it
successfully in the monolithic route and in the controller variant; only the
NotFound half of the claim holds. -/
theorem c2_delete_skips_permission_check :
    deleteNotificationRoute sampleDB ⟨30, false⟩ 1 =
      (⟨200, "Notification deleted"⟩,
       { users := [{ id := 10, email := "a@x.com", username := "alice", password := "H1",
                     notifications := [] },
                   { id := 20, email := "b@x.com", username := "bob", password := "H2",
                     notifications := [2] }]
         notifications := [{ id := 2, message := "n2", createdAt := 0, isRead := true,
                             recipients := [20] }] }) ∧
    deleteNotificationRoute sampleDB ⟨30, false⟩ 99 =
      (⟨404, "Notification not found"⟩, sampleDB) ∧
    deleteNotificationC
        { users := [], notifications := [{ id := 1, message := "x", userIds := [5], createdAt := 0 }] }
        1 (some 30) =
      (⟨200, "Notificación eliminada"⟩, { users := [], notifications := [] }) :=
  ⟨rfl, rfl, rfl⟩

/-- C3: the claim says creation fails with Forbidden for every authenticated
caller whose verified claims have isAdmin=false.  The monolithic endpoint
does enforce this, but the duplicate entry points mount the handler without
any admin check: the holder of a verified non-admin token (claims
⟨2, false⟩) still creates a notification there. -/
theorem c3_create_not_admin_gated_in_router_variant :
    jwtVerify 5 1 (jwtSign 5 2 false 0) = Except.ok ⟨2, false⟩ ∧
    routedCreateNotification sampleDBC (some (jwtSign 5 2 false 0)) "hola" [1] 8 1 =
      (⟨201, "Notificación creada"⟩,
       { users := [{ id := 1, email := "c@x.com", username := "carol", password := "H3",
                     notifications := [8] }]
         notifications := [{ id := 8, message := "hola", userIds := [1], createdAt := 1 }] }) ∧
    createNotificationRoute sampleDB ⟨2, false⟩ "hola" [10] 8 1 =
      Except.ok (⟨403, "Admin privileges required"⟩, sampleDB) :=
  ⟨rfl, rfl, rfl⟩

/-- C6 counterexample: on the monolithic endpoint (src/index.js:133-150) an
admin's `create` with a non-empty message and an EMPTY recipient list does
not fail with InvalidInput — it persists a recipient-less notification and
answers 201. -/
theorem c6_empty_recipients_persists_on_index_route :
    createNotificationRoute sampleDB ⟨1, true⟩ "hi" [] 9 2 =
      Except.ok (⟨201, "Notification sent sers"⟩,
        { users := sampleDB.users
          notifications := sampleDB.notifications ++
            [{ id := 9, message := "hi", createdAt := 2, recipients := [] }] }) :=
  rfl

/-- C6 amended: the controller variant of `create` rejects an empty message
or an empty recipient list with 400 and persists nothing; the monolithic
endpoint performs no handler-level validation — an empty message is stopped
only by the store schema (the save rejection escapes the handler, persisting
nothing), and an empty recipient list is persisted (see the
counterexample). -/
theorem c6_create_validation_amended (dbc : DBC) (db : DB) (user : Claims)
    (message : String) (userIds : List Nat) (nid now : Nat) :
    ((message = "" ∨ userIds = []) →
      createNotification dbc message userIds nid now =
        (⟨400, "Mensaje y lista de usuarios son requeridos"⟩, dbc)) ∧
    (user.isAdmin = true →
      createNotificationRoute db user "" userIds nid now =
        Except.error "Notification validation failed: message: Path `message` is required.") := by
  constructor
  · rintro (h | h) <;> subst h <;> simp [createNotification]
  · intro h
    simp [createNotificationRoute, saveNotification, h]

/-- Witness for C6's amended theorem at concrete inputs: empty message is
rejected by the controller with 400 and nothing persisted, and escapes the
monolithic handler as a store validation error. -/
theorem c6_create_validation_amended_witness :
    createNotification sampleDBC "" [10] 9 2 =
      (⟨400, "Mensaje y lista de usuarios son requeridos"⟩, sampleDBC) ∧
    createNotificationRoute sampleDB ⟨1, true⟩ "" [10] 9 2 =
      Except.error "Notification validation failed: message: Path `message` is required." :=
  ⟨(c6_create_validation_amended sampleDBC sampleDB ⟨1, true⟩ "" [10] 9 2).1 (Or.inl rfl),
   (c6_create_validation_amended sampleDBC sampleDB ⟨1, true⟩ "" [10] 9 2).2 rfl⟩

/-- C10: a login attempt whose email matches no active user and a login
attempt naming an active user but failing the bcrypt comparison produce the
same response — status 401, message "Invalid credentials", no cookie, no
body fields — so the caller cannot tell whether the account exists. -/
theorem c10_login_indistinguishable (compare : String → String → Bool)
    (secret now : Nat) (db : DB) (e1 p1 e2 p2 : String) (u : UserR)
    (h1 : findActiveByEmail db e1 = none)
    (h2 : findActiveByEmail db e2 = some u)
    (h3 : compare p2 u.password = false) :
    login compare secret now db e1 p1 = login compare secret now db e2 p2 ∧
    (login compare secret now db e1 p1).status = 401 ∧
    (login compare secret now db e1 p1).message = "Invalid credentials" := by
  simp [login, h1, h2, h3]

/-- Witness for C10: in the sample store, a login with an unknown email and
a login with alice's email but a rejected password coincide on 401 "Invalid
credentials". -/
theorem c10_login_indistinguishable_witness :
    login compareNever 5 0 sampleDB "zz@x.com" "p1" =
      login compareNever 5 0 sampleDB "a@x.com" "p2" ∧
    (login compareNever 5 0 sampleDB "zz@x.com" "p1").status = 401 ∧
    (login compareNever 5 0 sampleDB "zz@x.com" "p1").message = "Invalid credentials" :=
  c10_login_indistinguishable compareNever 5 0 sampleDB "zz@x.com" "p1" "a@x.com" "p2"
    aliceU rfl rfl rfl

/-- C7: for a non-empty id list, `markNotificationsRead` answers 200, leaves
the users untouched, sets `isRead` on exactly those stored notifications
whose id is in the list and whose recipients include the caller (all others,
including ids not addressed to the caller, are returned unchanged rather
than erroring), and reports as `modifiedCount` the number of such
notifications that were previously unread. -/
theorem c7_markRead_exact (db : DB) (user : Claims) (ids : List Nat) (h : ids ≠ []) :
    (markNotificationsRead db user ids).1.status = 200 ∧
    (markNotificationsRead db user ids).1.message = "Notifications marked as read" ∧
    (markNotificationsRead db user ids).1.modifiedCount =
      some (db.notifications.countP
        (fun n => ids.contains n.id && n.recipients.contains user.userId && !n.isRead)) ∧
    (markNotificationsRead db user ids).2.users = db.users ∧
    (markNotificationsRead db user ids).2.notifications.length = db.notifications.length ∧
    (∀ i, (hi : i < db.notifications.length) →
      (hi2 : i < (markNotificationsRead db user ids).2.notifications.length) →
      (markNotificationsRead db user ids).2.notifications.get ⟨i, hi2⟩ =
        (if ids.contains (db.notifications.get ⟨i, hi⟩).id &&
            (db.notifications.get ⟨i, hi⟩).recipients.contains user.userId then
          { db.notifications.get ⟨i, hi⟩ with isRead := true }
        else db.notifications.get ⟨i, hi⟩)) := by
  cases ids with
  | nil => exact absurd rfl h
  | cons a l =>
    have hred : markNotificationsRead db user (a :: l) =
        ({ status := 200, message := "Notifications marked as read"
           modifiedCount := some ((db.notifications.filter
             (fun n => ((a :: l).contains n.id && n.recipients.contains user.userId) &&
               !n.isRead)).length) },
         { db with
           notifications := db.notifications.map
             (fun n => if (a :: l).contains n.id && n.recipients.contains user.userId then
               { n with isRead := true } else n) }) := rfl
    rw [hred]
    refine ⟨rfl, rfl, ?_, rfl, by simp, ?_⟩
    · rw [List.countP_eq_length_filter]
    · intro i hi hi2
      simp [List.get_map]

/-- Witness for C7: in the sample store, bob (id 20, a recipient of
notification 1) marks notification 1 read; the call answers 200 and the
modified count matches the matched-and-unread notifications. -/
theorem c7_markRead_exact_witness :
    (markNotificationsRead sampleDB ⟨20, false⟩ [1]).1.status = 200 ∧
    (markNotificationsRead sampleDB ⟨20, false⟩ [1]).1.modifiedCount =
      some (sampleDB.notifications.countP
        (fun n => [1].contains n.id && n.recipients.contains 20 && !n.isRead)) :=
  ⟨(c7_markRead_exact sampleDB ⟨20, false⟩ [1] (by decide)).1,
   (c7_markRead_exact sampleDB ⟨20, false⟩ [1] (by decide)).2.2.1⟩

/-- The per-notification update of a bulk set-read is idempotent whenever the
filter predicate ignores the `isRead` field. -/
theorem markRead_f_idem (p : NotificationR → Bool)
    (hp : ∀ n, p { n with isRead := true } = p n) (n : NotificationR) :
    (fun m => if p m then { m with isRead := true } else m)
      ((fun m => if p m then { m with isRead := true } else m) n) =
    (fun m => if p m then { m with isRead := true } else m) n := by
  by_cases hn : p n = true
  · simp only [if_pos hn, hp, if_pos hn]
  · simp only [if_neg hn]

/-- Applying a bulk set-read twice over a notification list equals applying
it once, whenever the filter predicate ignores the `isRead` field. -/
theorem markRead_map_idem (p : NotificationR → Bool)
    (hp : ∀ n, p { n with isRead := true } = p n) (l : List NotificationR) :
    (l.map (fun m => if p m then { m with isRead := true } else m)).map
      (fun m => if p m then { m with isRead := true } else m) =
    l.map (fun m => if p m then { m with isRead := true } else m) := by
  induction l with
  | nil => rfl
  | cons a l ih =>
    simp only [List.map_cons, ih, List.cons.injEq, and_true]
    exact markRead_f_idem p hp a

/-- C8: marking notification `n1` read as recipient `A` answers 200 and sets
the single shared `isRead` flag: the stored document with `n1`'s id is the
read copy of `n1`, which every recipient of `n1` observes through the
recipients-membership query; repeating the same call answers 200 again and
leaves the store exactly as it was after the first call. -/
theorem c8_markRead_shared_flag_idempotent (db : DB) (n1 : NotificationR)
    (A : Nat) (adm : Bool)
    (hnd : (db.notifications.map (fun n => n.id)).Nodup)
    (hmem : n1 ∈ db.notifications)
    (hA : n1.recipients.contains A = true) :
    (markNotificationsRead db ⟨A, adm⟩ [n1.id]).1.status = 200 ∧
    (markNotificationsRead db ⟨A, adm⟩ [n1.id]).2.notifications.find?
        (fun n => n.id = n1.id) = some { n1 with isRead := true } ∧
    (∀ B, n1.recipients.contains B = true →
      { n1 with isRead := true } ∈
        notificationsFor (markNotificationsRead db ⟨A, adm⟩ [n1.id]).2 B) ∧
    (markNotificationsRead (markNotificationsRead db ⟨A, adm⟩ [n1.id]).2
        ⟨A, adm⟩ [n1.id]).1.status = 200 ∧
    (markNotificationsRead (markNotificationsRead db ⟨A, adm⟩ [n1.id]).2
        ⟨A, adm⟩ [n1.id]).2 = (markNotificationsRead db ⟨A, adm⟩ [n1.id]).2 := by
  have hf : ∀ n : NotificationR,
      ((if [n1.id].contains n.id && n.recipients.contains A then
          { n with isRead := true } else n) : NotificationR).id = n.id := by
    intro n
    by_cases hn : ([n1.id].contains n.id && n.recipients.contains A) = true
    · rw [if_pos hn]
    · rw [if_neg hn]
  have hcond : ([n1.id].contains n1.id && n1.recipients.contains A) = true := by
    simp only [List.contains_cons, beq_self_eq_true, Bool.true_or, Bool.true_and]
    exact hA
  have hfn1 : (if [n1.id].contains n1.id && n1.recipients.contains A then
      { n1 with isRead := true } else n1) = { n1 with isRead := true } :=
    if_pos hcond
  refine ⟨rfl, ?_, ?_, rfl, ?_⟩
  · have hfd := notif_find?_map db.notifications
      (fun n => if [n1.id].contains n.id && n.recipients.contains A then
        { n with isRead := true } else n) hf n1 hnd hmem
    simp only [hfn1] at hfd
    exact hfd
  · intro B hB
    refine List.mem_filter.mpr ⟨?_, ?_⟩
    · have hmm := List.mem_map_of_mem
        (fun n => if [n1.id].contains n.id && n.recipients.contains A then
          { n with isRead := true } else n) hmem
      simp only [hfn1] at hmm
      exact hmm
    · simpa using hB
  · show ({ (markNotificationsRead db ⟨A, adm⟩ [n1.id]).2 with
        notifications := (markNotificationsRead db ⟨A, adm⟩ [n1.id]).2.notifications.map
          (fun m => if [n1.id].contains m.id && m.recipients.contains A then
            { m with isRead := true } else m) } : DB) =
      (markNotificationsRead db ⟨A, adm⟩ [n1.id]).2
    have hidem := markRead_map_idem
      (fun n => [n1.id].contains n.id && n.recipients.contains A)
      (fun _ => rfl) db.notifications
    show ({ users := db.users
            notifications := (db.notifications.map
              (fun m => if [n1.id].contains m.id && m.recipients.contains A then
                { m with isRead := true } else m)).map
              (fun m => if [n1.id].contains m.id && m.recipients.contains A then
                { m with isRead := true } else m) } : DB) =
      { users := db.users
        notifications := db.notifications.map
          (fun m => if [n1.id].contains m.id && m.recipients.contains A then
            { m with isRead := true } else m) }
    rw [hidem]

/-- Witness for C8: alice (id 10) marks the shared notification 1 read in
the sample store; the stored copy is read, and repeating the call leaves the
store unchanged. -/
theorem c8_markRead_shared_flag_idempotent_witness :
    (markNotificationsRead sampleDB ⟨10, false⟩ [1]).1.status = 200 ∧
    (markNotificationsRead sampleDB ⟨10, false⟩ [1]).2.notifications.find?
        (fun n => n.id = 1) =
      some { id := 1, message := "n1", createdAt := 0, isRead := true,
             recipients := [10, 20] } ∧
    (markNotificationsRead (markNotificationsRead sampleDB ⟨10, false⟩ [1]).2
        ⟨10, false⟩ [1]).2 = (markNotificationsRead sampleDB ⟨10, false⟩ [1]).2 :=
  ⟨(c8_markRead_shared_flag_idempotent sampleDB
      { id := 1, message := "n1", createdAt := 0, recipients := [10, 20] } 10 false
      (by decide) (by decide) (by decide)).1,
   (c8_markRead_shared_flag_idempotent sampleDB
      { id := 1, message := "n1", createdAt := 0, recipients := [10, 20] } 10 false
      (by decide) (by decide) (by decide)).2.1,
   (c8_markRead_shared_flag_idempotent sampleDB
      { id := 1, message := "n1", createdAt := 0, recipients := [10, 20] } 10 false
      (by decide) (by decide) (by decide)).2.2.2.2⟩

/-- C9: for a stored user (unique ids, email unique to that user), the soft
delete answers 200 with the updated record, after which `findActiveByEmail`
on that email returns not-found, while the record still exists in the store
with every field other than `isDeleted` unchanged; all other users and the
notification collection are untouched. -/
theorem c9_softDelete_then_findActive (db : DB) (u : UserR)
    (hmem : u ∈ db.users)
    (hnd : (db.users.map (fun x => x.id)).Nodup)
    (hemail : ∀ v ∈ db.users, v.email = u.email → v.id = u.id) :
    (deleteUserRoute db u.id).1 = ⟨200, "User deleted"⟩ ∧
    (deleteUserRoute db u.id).2.1 = some { u with isDeleted := true } ∧
    findActiveByEmail (deleteUserRoute db u.id).2.2 u.email = none ∧
    { u with isDeleted := true } ∈ (deleteUserRoute db u.id).2.2.users ∧
    (∀ v ∈ db.users, v.id ≠ u.id → v ∈ (deleteUserRoute db u.id).2.2.users) ∧
    (deleteUserRoute db u.id).2.2.notifications = db.notifications := by
  have hfind : db.users.find? (fun w => w.id = u.id) = some u :=
    user_find?_self db.users u hnd hmem
  have hroute : deleteUserRoute db u.id =
      (⟨200, "User deleted"⟩, some { u with isDeleted := true },
       { db with users := setDeletedById db.users u.id }) := by
    simp only [deleteUserRoute, hfind]
  rw [hroute]
  refine ⟨rfl, rfl, ?_, ?_, ?_, rfl⟩
  · rw [findActiveByEmail]
    apply List.find?_eq_none.mpr
    intro w hw
    rcases mem_setDeletedById_cases db.users u.id hnd w hw with ⟨v, _, _, rfl⟩ | ⟨h1, h2⟩
    · simp
    · simp only [Bool.and_eq_true, decide_eq_true_eq, Bool.not_eq_true']
      rintro ⟨he, _⟩
      exact h2 (hemail w h1 he)
  · exact deleted_mem_setDeletedById db.users u hnd hmem
  · intro v hv hne
    exact mem_setDeletedById_of_ne db.users u.id v hv hne

/-- Witness for C9: soft-deleting alice (id 10) in the sample store answers
200 and her email no longer resolves through `findActiveByEmail`. -/
theorem c9_softDelete_then_findActive_witness :
    (deleteUserRoute sampleDB 10).1 = ⟨200, "User deleted"⟩ ∧
    findActiveByEmail (deleteUserRoute sampleDB 10).2.2 "a@x.com" = none :=
  ⟨(c9_softDelete_then_findActive sampleDB aliceU (by decide) (by decide)
      (by decide)).1,
   (c9_softDelete_then_findActive sampleDB aliceU (by decide) (by decide)
      (by decide)).2.2.1⟩

end Propital
